import Mathlib

/-!
Shallow embedding of the VISITOR-AND-KEY-RECORD server (`src/adb_bridge.js`).

The server keeps two flat collections (`visitors.json`, `keys.json`) and a
photo directory; each HTTP handler loads a collection, mutates it in memory
and writes it back.  We embed each handler as a pure function from the
request data and the current store to a response and the next store.  The
photo directory is a finite association list from file name to file
content.  JavaScript strings that may be `undefined` are `Option String`.

A load-bearing detail of the source: the file binds
`fs = require('fs').promises`, and the promises API has no `existsSync`,
so every `fs.existsSync(...)` call in the two delete-with-adjust routes
throws a TypeError which the surrounding `try { } catch` swallows (it is
only logged).  We embed that call as an always-throwing operation.
-/

deriving instance DecidableEq for Except

namespace VisitorLog

/-- JavaScript truthiness of a possibly-undefined string: `undefined` and
the empty string are falsy, every other string is truthy. -/
def jsTruthy : Option String → Bool
  | none => false
  | some s => s != ""

/-- Coercion of a possibly-undefined string into a string context
(template literals, `RegExp#test`): `undefined` prints as "undefined". -/
def jsStr : Option String → String
  | none => "undefined"
  | some s => s

/-- Embedding of JavaScript `String#trim` (whitespace characters stripped
from both ends). -/
def isJsSpace (c : Char) : Bool :=
  c == ' ' || c == '\t' || c == '\n' || c == '\r' || c == '\x0b' || c == '\x0c'

/-- Embedding of JavaScript trim: drop whitespace at both ends. -/
def jsTrim (s : String) : String :=
  String.mk (((s.toList.dropWhile isJsSpace).reverse.dropWhile isJsSpace).reverse)

/-- The check `!visitor[field] || visitor[field].trim() === ''` used by the
validators: the field is missing, or empty after trimming.  (An absent or
empty string is falsy; a present nonempty string is trimmed.) -/
def isBlank : Option String → Bool
  | none => true
  | some s => jsTrim s == ""

/-- Decimal digit character, `String(n)` rendering of a single digit. -/
def digitChar (d : Nat) : Char := Char.ofNat (48 + d)

/-- Decimal rendering of a natural number (JavaScript `Number#toString`),
written with explicit fuel so that it is structural recursion. -/
def decDigitsAux : Nat → Nat → List Char
  | 0, _ => []
  | fuel + 1, n =>
      if n < 10 then [digitChar n]
      else decDigitsAux fuel (n / 10) ++ [digitChar (n % 10)]

/-- Decimal digit list of `n`; fuel `n + 1` always suffices. -/
def decDigits (n : Nat) : List Char := decDigitsAux (n + 1) n

/-- Decimal value of a digit list (used only in proofs, to recover the
number from its padded rendering). -/
def decodeDec (cs : List Char) : Nat :=
  cs.foldl (fun a c => a * 10 + (c.toNat - 48)) 0

/-- JavaScript `String#padStart(4, '0')` on a digit list. -/
def padTo4 (cs : List Char) : List Char :=
  if cs.length ≥ 4 then cs else List.replicate (4 - cs.length) '0' ++ cs

/-- The serial number assigned to position `n`:
`(n).toString().padStart(4, '0')`. -/
def serialFor (n : Nat) : String := String.mk (padTo4 (decDigits n))

/-- The fixed id pattern `^784-\d{4}-\d{7}-\d$` of the two validators,
embedded structurally (anchored at both ends). -/
def matchesIdPattern (s : String) : Bool :=
  match s.toList with
  | ['7', '8', '4', '-', a, b, c, d, '-', e, f, g, h, i, j, k, '-', m] =>
      [a, b, c, d, e, f, g, h, i, j, k, m].all Char.isDigit
  | _ => false

/-- Word character of the regular-expression class `\w`. -/
def isWordChar (c : Char) : Bool := c.isAlphanum || c == '_'

/-- Embedding of `.replace(/^data:image\/\w+;base64,/, '')`: strip one
anchored data-URI header if present, otherwise return the string as is. -/
def stripDataUrl (s : String) : String :=
  match s.toList with
  | 'd' :: 'a' :: 't' :: 'a' :: ':' :: 'i' :: 'm' :: 'a' :: 'g' :: 'e' :: '/' :: rest =>
      match rest.takeWhile isWordChar, rest.dropWhile isWordChar with
      | _ :: _, ';' :: 'b' :: 'a' :: 's' :: 'e' :: '6' :: '4' :: ',' :: body =>
          String.mk body
      | _, _ => s
  | _ => s

/-- The photo directory: an association list from file name to content. -/
abbrev FileMap := List (String × String)

/-- `fs.writeFile` semantics on the directory map: overwrite any previous
entry of the same name. -/
def writeEntry (files : FileMap) (nm content : String) : FileMap :=
  files.filter (fun e => e.1 != nm) ++ [(nm, content)]

/-- `fs.unlink` semantics on the directory map. -/
def removeEntry (files : FileMap) (nm : String) : FileMap :=
  files.filter (fun e => e.1 != nm)

/-- `fs.rename` semantics on the directory map (destination overwritten). -/
def renameEntry (files : FileMap) (old new : String) : FileMap :=
  match files.find? (fun e => e.1 == old) with
  | none => files
  | some e => writeEntry (removeEntry files old) new e.2

/-- The server binds `fs` to `require('fs').promises`, which exposes no
`existsSync`; each `fs.existsSync(path)` call therefore throws a
TypeError instead of answering. -/
def fsPromisesExistsSync (_files : FileMap) (_p : String) : Except String Bool :=
  .error "TypeError: fs.existsSync is not a function"

/-- `fs.writeFile` with an environment oracle saying which paths can be
written; a failed write rejects and leaves the directory unchanged. -/
def fsWriteFile (writeOk : String → Bool) (files : FileMap) (nm content : String) :
    Except String FileMap :=
  if writeOk nm then .ok (writeEntry files nm content) else .error "photo write failed"

/-- JavaScript `Array#findIndex` scanning from index `i`. -/
def findIndexFrom (p : α → Bool) : List α → Nat → Option Nat
  | [], _ => none
  | x :: xs, i => if p x then some i else findIndexFrom p xs (i + 1)

/-- JavaScript `Array#findIndex` (`none` stands for `-1`). -/
def jsFindIndex (p : α → Bool) (l : List α) : Option Nat := findIndexFrom p l 0

/-- A visitor record / request body.  JavaScript objects may lack any of
these properties, so every field is a possibly-undefined string. -/
structure Visitor where
  serialNumber : Option String := none
  idNumber : Option String := none
  name : Option String := none
  company : Option String := none
  phone : Option String := none
  timeIn : Option String := none
  date : Option String := none
  purpose : Option String := none
  frontPhoto : Option String := none
  backPhoto : Option String := none
  timeOut : Option String := none
deriving Repr, DecidableEq

/-- Property access `visitor[field]` for the field names the validator
iterates over. -/
def visitorField (v : Visitor) : String → Option String
  | "serialNumber" => v.serialNumber
  | "idNumber" => v.idNumber
  | "name" => v.name
  | "company" => v.company
  | "phone" => v.phone
  | "timeIn" => v.timeIn
  | "date" => v.date
  | "purpose" => v.purpose
  | "frontPhoto" => v.frontPhoto
  | "backPhoto" => v.backPhoto
  | "timeOut" => v.timeOut
  | _ => none

/-- The `requiredFields` list of `validateVisitorData`. -/
def requiredVisitorFields : List String :=
  ["serialNumber", "idNumber", "name", "company", "phone", "timeIn", "date", "purpose"]

/-- The `missingFields` accumulated by `validateVisitorData`: required
fields that are absent or empty after trimming, in iteration order. -/
def missingVisitorFields (v : Visitor) : List String :=
  requiredVisitorFields.filter (fun f => isBlank (visitorField v f))

/-- `validateVisitorData` of `src/adb_bridge.js`: required fields first
(all missing ones reported at once), then the id pattern, then the two
photo payloads.  A thrown `Error` is the `.error` case. -/
def validateVisitorData (v : Visitor) : Except String Unit :=
  let missingFields := missingVisitorFields v
  if missingFields ≠ [] then
    .error ("Missing required fields: " ++ String.intercalate ", " missingFields)
  else if ¬ matchesIdPattern (jsStr v.idNumber) then
    .error "Invalid ID Number format"
  else if ¬ (jsTruthy v.frontPhoto ∧ jsTruthy v.backPhoto) then
    .error "Both front and back ID photos are required"
  else
    .ok ()

/-- The state owned by the visitor routes: the parsed `visitors.json`
collection and the photo directory. -/
structure VisitorStore where
  visitors : List Visitor
  files : FileMap
deriving Repr, DecidableEq

/-- Handler of `POST /api/visitors`: validate, overwrite the serial number
with `(visitors.length + 1).toString().padStart(4, '0')`, overwrite the
date with the server's current date, write both photos (base64 header
stripped), rewrite the photo fields to web paths, append and save.  Any
thrown error is answered as a 400 with the error message. -/
def createVisitor (today : String) (writeOk : String → Bool) (v : Visitor)
    (s : VisitorStore) : Except String Visitor × VisitorStore :=
  match validateVisitorData v with
  | .error e => (.error e, s)
  | .ok _ =>
    let nextSerialNumber := serialFor (s.visitors.length + 1)
    let v1 : Visitor := { v with serialNumber := some nextSerialNumber,
                                 date := some today }
    let frontName := nextSerialNumber ++ "_front.jpg"
    let backName := nextSerialNumber ++ "_back.jpg"
    let frontPhotoData := stripDataUrl (jsStr v1.frontPhoto)
    let backPhotoData := stripDataUrl (jsStr v1.backPhoto)
    match fsWriteFile writeOk s.files frontName frontPhotoData with
    | .error e => (.error e, s)
    | .ok files1 =>
      match fsWriteFile writeOk files1 backName backPhotoData with
      | .error e => (.error e, { s with files := files1 })
      | .ok files2 =>
        let v2 : Visitor := { v1 with frontPhoto := some ("/photos/" ++ frontName),
                                      backPhoto := some ("/photos/" ++ backName) }
        (.ok v2, { visitors := s.visitors ++ [v2], files := files2 })

/-- In-place mutation of the object JavaScript `Array#find` returned: the
first element satisfying `p` is replaced by its image under `f`, every
other element is untouched. -/
def updateFirst (p : α → Bool) (f : α → α) : List α → List α
  | [] => []
  | x :: xs => if p x then f x :: xs else x :: updateFirst p f xs

/-- Handler of `POST /api/visitors/:serialNumber/timeout`: find the first
record with that serial number, set its `timeOut` to the request body's
value (mutating it in place inside the collection), save, and answer with
the updated record. -/
def timeoutVisitor (serialNumber : String) (timeOut : Option String)
    (s : VisitorStore) : Except String Visitor × VisitorStore :=
  match s.visitors.find? (fun v => v.serialNumber == some serialNumber) with
  | none => (.error "Visitor not found", s)
  | some v =>
    let v' : Visitor := { v with timeOut := timeOut }
    let visitors' :=
      updateFirst (fun u => u.serialNumber == some serialNumber)
        (fun u => { u with timeOut := timeOut }) s.visitors
    (.ok v', { s with visitors := visitors' })

/-- The photo-deletion block of the adjust routes:
`try { if (fs.existsSync(front)) await fs.unlink(front);
       if (fs.existsSync(back)) await fs.unlink(back); } catch { log }`.
`fs` is the promises API, so the first `existsSync` call throws and the
catch leaves the directory exactly as it was. -/
def deletePhotosIfExist (files : FileMap) (front back : String) : FileMap :=
  match fsPromisesExistsSync files front with
  | .error _ => files
  | .ok b =>
    let files1 := if b then removeEntry files front else files
    match fsPromisesExistsSync files1 back with
    | .error _ => files1
    | .ok b2 => if b2 then removeEntry files1 back else files1

/-- The per-record rename block of the renumbering loops:
`try { if (fs.existsSync(oldFront)) await fs.rename(oldFront, newFront);
       if (fs.existsSync(oldBack)) await fs.rename(oldBack, newBack); }
 catch { log }`; again the first `existsSync` call throws, so the block
never renames anything. -/
def renamePhotosIfExist (files : FileMap) (oldFront oldBack newFront newBack : String) :
    FileMap :=
  match fsPromisesExistsSync files oldFront with
  | .error _ => files
  | .ok b =>
    let files1 := if b then renameEntry files oldFront newFront else files
    match fsPromisesExistsSync files1 oldBack with
    | .error _ => files1
    | .ok b2 => if b2 then renameEntry files1 oldBack newBack else files1

/-- Body of the renumbering loop acting on one record at position `i`
(0-based): `newSerial = (i + 1).toString().padStart(4, '0')`, and the
record's serial number and both photo paths are rewritten. -/
def renumberVisitor (n : Nat) (v : Visitor) : Visitor :=
  { v with serialNumber := some (serialFor n),
           frontPhoto := some ("/photos/" ++ serialFor n ++ "_front.jpg"),
           backPhoto := some ("/photos/" ++ serialFor n ++ "_back.jpg") }

/-- The renumbering loop of `DELETE /api/visitors/:serialNumber/adjust`,
carried out from loop index `i`: each remaining record is renumbered
positionally and its photo files are renamed via the (throwing)
`existsSync`-guarded block. -/
def adjustVisitorsLoop : Nat → List Visitor → FileMap → List Visitor × FileMap
  | _, [], files => ([], files)
  | i, v :: rest, files =>
    let newSerial := serialFor (i + 1)
    let oldSerial := jsStr v.serialNumber
    let v' := renumberVisitor (i + 1) v
    let files' := renamePhotosIfExist files
      (oldSerial ++ "_front.jpg") (oldSerial ++ "_back.jpg")
      (newSerial ++ "_front.jpg") (newSerial ++ "_back.jpg")
    let next := adjustVisitorsLoop (i + 1) rest files'
    (v' :: next.1, next.2)

/-- Handler of `DELETE /api/visitors/:serialNumber/adjust`: 404 when the
serial number matches no record; otherwise remove the record, attempt to
delete its photos, renumber the remaining records (renaming photo files
per record), save, and answer with the remaining count. -/
def deleteVisitorAdjust (serialNumber : String) (s : VisitorStore) :
    Except String Nat × VisitorStore :=
  match jsFindIndex (fun v => v.serialNumber == some serialNumber) s.visitors with
  | none => (.error "Visitor not found", s)
  | some visitorIndex =>
    let visitors1 := s.visitors.eraseIdx visitorIndex
    let files1 := deletePhotosIfExist s.files
      (serialNumber ++ "_front.jpg") (serialNumber ++ "_back.jpg")
    let next := adjustVisitorsLoop 0 visitors1 files1
    (.ok next.1.length, { visitors := next.1, files := next.2 })

/-- A key record / request body, structurally parallel to `Visitor`. -/
structure Key where
  serialNumber : Option String := none
  idNumber : Option String := none
  name : Option String := none
  keyTagName : Option String := none
  timeTaken : Option String := none
  date : Option String := none
  securityRemarks : Option String := none
  frontPhoto : Option String := none
  backPhoto : Option String := none
  timeReturned : Option String := none
deriving Repr, DecidableEq

/-- Property access `key[field]` for the field names the validator
iterates over. -/
def keyField (k : Key) : String → Option String
  | "serialNumber" => k.serialNumber
  | "idNumber" => k.idNumber
  | "name" => k.name
  | "keyTagName" => k.keyTagName
  | "timeTaken" => k.timeTaken
  | "date" => k.date
  | "securityRemarks" => k.securityRemarks
  | "frontPhoto" => k.frontPhoto
  | "backPhoto" => k.backPhoto
  | "timeReturned" => k.timeReturned
  | _ => none

/-- The `requiredFields` list of `validateKeyData`. -/
def requiredKeyFields : List String :=
  ["serialNumber", "idNumber", "name", "keyTagName", "timeTaken", "date", "securityRemarks"]

/-- The `missingFields` accumulated by `validateKeyData`. -/
def missingKeyFields (k : Key) : List String :=
  requiredKeyFields.filter (fun f => isBlank (keyField k f))

/-- `validateKeyData` of `src/adb_bridge.js`: same shape as the visitor
validator, with the key field list and its own pattern error message. -/
def validateKeyData (k : Key) : Except String Unit :=
  let missingFields := missingKeyFields k
  if missingFields ≠ [] then
    .error ("Missing required fields: " ++ String.intercalate ", " missingFields)
  else if ¬ matchesIdPattern (jsStr k.idNumber) then
    .error "Invalid Emirates ID format. Expected format: 784-XXXX-XXXXXXX-X"
  else if ¬ (jsTruthy k.frontPhoto ∧ jsTruthy k.backPhoto) then
    .error "Both front and back ID photos are required"
  else
    .ok ()

/-- The state owned by the key routes: the parsed `keys.json` collection
and the photo directory. -/
structure KeyStore where
  keys : List Key
  files : FileMap
deriving Repr, DecidableEq

/-- Handler of `POST /api/keys`: like the visitor create, except the photo
files carry a `key_` name prefix and the date is only defaulted to the
server's current date when the client supplied none (`if (!key.date)`). -/
def createKey (today : String) (writeOk : String → Bool) (k : Key)
    (s : KeyStore) : Except String Key × KeyStore :=
  match validateKeyData k with
  | .error e => (.error e, s)
  | .ok _ =>
    let nextSerialNumber := serialFor (s.keys.length + 1)
    let k1 : Key := { k with serialNumber := some nextSerialNumber }
    let k2 : Key := if ¬ jsTruthy k1.date then { k1 with date := some today } else k1
    let frontName := "key_" ++ nextSerialNumber ++ "_front.jpg"
    let backName := "key_" ++ nextSerialNumber ++ "_back.jpg"
    let frontPhotoData := stripDataUrl (jsStr k2.frontPhoto)
    let backPhotoData := stripDataUrl (jsStr k2.backPhoto)
    match fsWriteFile writeOk s.files frontName frontPhotoData with
    | .error e => (.error e, s)
    | .ok files1 =>
      match fsWriteFile writeOk files1 backName backPhotoData with
      | .error e => (.error e, { s with files := files1 })
      | .ok files2 =>
        let k3 : Key := { k2 with frontPhoto := some ("/photos/" ++ frontName),
                                  backPhoto := some ("/photos/" ++ backName) }
        (.ok k3, { keys := s.keys ++ [k3], files := files2 })

/-- Handler of `POST /api/keys/:serialNumber/return`: find the first
record with that serial number, set its `timeReturned` to the request
body's value, save, and answer with the updated record. -/
def returnKey (serialNumber : String) (timeReturned : Option String)
    (s : KeyStore) : Except String Key × KeyStore :=
  match s.keys.find? (fun k => k.serialNumber == some serialNumber) with
  | none => (.error "Key not found", s)
  | some k =>
    let k' : Key := { k with timeReturned := timeReturned }
    let keys' :=
      updateFirst (fun u => u.serialNumber == some serialNumber)
        (fun u => { u with timeReturned := timeReturned }) s.keys
    (.ok k', { s with keys := keys' })

/-- Body of the key renumbering loop acting on one record at position `i`:
serial and both `key_`-prefixed photo paths rewritten positionally. -/
def renumberKey (n : Nat) (k : Key) : Key :=
  { k with serialNumber := some (serialFor n),
           frontPhoto := some ("/photos/key_" ++ serialFor n ++ "_front.jpg"),
           backPhoto := some ("/photos/key_" ++ serialFor n ++ "_back.jpg") }

/-- The renumbering loop of `DELETE /api/keys/:serialNumber`, from loop
index `i`. -/
def adjustKeysLoop : Nat → List Key → FileMap → List Key × FileMap
  | _, [], files => ([], files)
  | i, k :: rest, files =>
    let newSerial := serialFor (i + 1)
    let oldSerial := jsStr k.serialNumber
    let k' := renumberKey (i + 1) k
    let files' := renamePhotosIfExist files
      ("key_" ++ oldSerial ++ "_front.jpg") ("key_" ++ oldSerial ++ "_back.jpg")
      ("key_" ++ newSerial ++ "_front.jpg") ("key_" ++ newSerial ++ "_back.jpg")
    let next := adjustKeysLoop (i + 1) rest files'
    (k' :: next.1, next.2)

/-- Handler of `DELETE /api/keys/:serialNumber`: the adjusting delete of
the key collection (the key flow has no plain delete). -/
def deleteKeyAdjust (serialNumber : String) (s : KeyStore) :
    Except String Nat × KeyStore :=
  match jsFindIndex (fun k => k.serialNumber == some serialNumber) s.keys with
  | none => (.error "Key not found", s)
  | some keyIndex =>
    let keys1 := s.keys.eraseIdx keyIndex
    let files1 := deletePhotosIfExist s.files
      ("key_" ++ serialNumber ++ "_front.jpg") ("key_" ++ serialNumber ++ "_back.jpg")
    let next := adjustKeysLoop 0 keys1 files1
    (.ok next.1.length, { keys := next.1, files := next.2 })

/-- Handler of `GET /api/stats`: `totalVisitors` is the visitor collection
length and `activeKeys` counts records with `!k.timeReturned`. -/
def statsOp (visitors : List Visitor) (keys : List Key) : Nat × Nat :=
  let activeKeys := (keys.filter (fun k => ! jsTruthy k.timeReturned)).length
  (visitors.length, activeKeys)

/-! Arithmetic of the serial rendering: `serialFor` is injective, because
the decimal value can be read back off the zero-padded digit string. -/

theorem decodeDec_append_singleton (l : List Char) (c : Char) :
    decodeDec (l ++ [c]) = decodeDec l * 10 + (c.toNat - 48) := by
  simp [decodeDec, List.foldl_append]

theorem decodeDec_replicate_zero_append (k : Nat) (l : List Char) :
    decodeDec (List.replicate k '0' ++ l) = decodeDec l := by
  induction k with
  | zero => simp
  | succ k ih =>
    have h : List.replicate (k + 1) '0' ++ l = '0' :: (List.replicate k '0' ++ l) := by
      simp [List.replicate_succ]
    rw [h]
    simpa [decodeDec] using ih

theorem decodeDec_decDigitsAux (fuel n : Nat) (h : n < fuel) :
    decodeDec (decDigitsAux fuel n) = n := by
  induction fuel generalizing n with
  | zero => omega
  | succ fuel ih =>
    rw [decDigitsAux]
    by_cases hn : n < 10
    · simp only [hn, if_true]
      have : (digitChar n).toNat = 48 + n := by
        interval_cases n <;> rfl
      simp [decodeDec, this]
    · simp only [hn, if_false]
      have hdiv : n / 10 < fuel := by
        have h1 : n / 10 < n := Nat.div_lt_self (by omega) (by omega)
        omega
      rw [decodeDec_append_singleton, ih _ hdiv]
      have hc : (digitChar (n % 10)).toNat = 48 + n % 10 := by
        have : n % 10 < 10 := Nat.mod_lt _ (by omega)
        interval_cases h : n % 10 <;> simp [h] <;> rfl
      rw [hc]
      omega

theorem decodeDec_decDigits (n : Nat) : decodeDec (decDigits n) = n :=
  decodeDec_decDigitsAux (n + 1) n (Nat.lt_succ_self n)

theorem decodeDec_padTo4 (l : List Char) : decodeDec (padTo4 l) = decodeDec l := by
  rw [padTo4]
  by_cases h : l.length ≥ 4
  · simp [h]
  · simp [h, decodeDec_replicate_zero_append]

theorem serialFor_injective : Function.Injective serialFor := by
  intro a b h
  have hdata : padTo4 (decDigits a) = padTo4 (decDigits b) := by
    have := congrArg String.data h
    simpa [serialFor] using this
  have := congrArg decodeDec hdata
  rwa [decodeDec_padTo4, decodeDec_padTo4, decodeDec_decDigits, decodeDec_decDigits] at this

/-! Characterisation of the JavaScript `findIndex` / `find` embedding. -/

theorem findIndexFrom_eq_none {p : α → Bool} {l : List α}
    (h : ∀ x ∈ l, p x = false) (c : Nat) : findIndexFrom p l c = none := by
  induction l generalizing c with
  | nil => rfl
  | cons x xs ih =>
    have hx : p x = false := h x (by simp)
    simp only [findIndexFrom, hx, Bool.false_eq_true, if_false]
    exact ih (fun y hy => h y (by simp [hy])) (c + 1)

theorem findIndexFrom_eq_some {p : α → Bool} {l : List α} {j : Nat}
    (hj : j < l.length)
    (hbefore : ∀ i : Fin l.length, i.1 < j → p (l.get i) = false)
    (hat : p (l.get ⟨j, hj⟩) = true) (c : Nat) :
    findIndexFrom p l c = some (c + j) := by
  induction l generalizing j c with
  | nil => simp at hj
  | cons x xs ih =>
    match j with
    | 0 =>
      simp only [List.get] at hat
      simp [findIndexFrom, hat]
    | j' + 1 =>
      have hx : p x = false := hbefore ⟨0, by simp⟩ (Nat.succ_pos j')
      simp only [findIndexFrom, hx, Bool.false_eq_true, if_false]
      have hj' : j' < xs.length := by simpa using hj
      have hb' : ∀ i : Fin xs.length, i.1 < j' → p (xs.get i) = false := by
        intro i hi
        have := hbefore ⟨i.1 + 1, by simpa using i.2⟩ (Nat.succ_lt_succ hi)
        simpa using this
      have ha' : p (xs.get ⟨j', hj'⟩) = true := by simpa using hat
      rw [ih hj' hb' ha' (c + 1)]
      congr 1
      omega

theorem jsFindIndex_eq_some {p : α → Bool} {l : List α} {j : Nat}
    (hj : j < l.length)
    (hbefore : ∀ i : Fin l.length, i.1 < j → p (l.get i) = false)
    (hat : p (l.get ⟨j, hj⟩) = true) :
    jsFindIndex p l = some j := by
  have := findIndexFrom_eq_some hj hbefore hat 0
  simpa [jsFindIndex] using this

theorem jsFindIndex_eq_none {p : α → Bool} {l : List α}
    (h : ∀ x ∈ l, p x = false) : jsFindIndex p l = none :=
  findIndexFrom_eq_none h 0

/-- First-match description recovered from a successful `findIndex`. -/
theorem jsFindIndex_spec {p : α → Bool} {l : List α} {j : Nat}
    (h : jsFindIndex p l = some j) :
    ∃ hj : j < l.length, p (l.get ⟨j, hj⟩) = true ∧
      ∀ i : Fin l.length, i.1 < j → p (l.get i) = false := by
  have main : ∀ (l : List α) (c r : Nat), findIndexFrom p l c = some r →
      ∃ i, r = c + i ∧ ∃ hi : i < l.length, p (l.get ⟨i, hi⟩) = true ∧
        ∀ k : Fin l.length, k.1 < i → p (l.get k) = false := by
    intro l
    induction l with
    | nil => intro c r hcr; simp [findIndexFrom] at hcr
    | cons x xs ih =>
      intro c r hcr
      by_cases hx : p x = true
      · refine ⟨0, ?_, by simp, by simpa using hx, by omega⟩
        simp only [findIndexFrom, hx, if_true, Option.some.injEq] at hcr
        omega
      · have hx' : p x = false := by simpa using hx
        simp only [findIndexFrom, hx', Bool.false_eq_true, if_false] at hcr
        obtain ⟨i, hri, hi, hat, hbef⟩ := ih (c + 1) r hcr
        refine ⟨i + 1, by omega, by simpa using hi, by simpa using hat, ?_⟩
        intro k hk
        match k with
        | ⟨0, _⟩ => simpa using hx'
        | ⟨k' + 1, hk'⟩ =>
          have := hbef ⟨k', by simpa using hk'⟩ (Nat.lt_of_succ_lt_succ hk)
          simpa using this
  obtain ⟨i, hri, hi, hat, hbef⟩ := main l 0 j h
  have : j = i := by omega
  subst this
  exact ⟨hi, hat, hbef⟩

theorem find?_of_first {p : α → Bool} {l : List α} {j : Nat}
    (hj : j < l.length)
    (hbefore : ∀ i : Fin l.length, i.1 < j → p (l.get i) = false)
    (hat : p (l.get ⟨j, hj⟩) = true) :
    l.find? p = some (l.get ⟨j, hj⟩) := by
  induction l generalizing j with
  | nil => simp at hj
  | cons x xs ih =>
    match j with
    | 0 =>
      simp only [List.get] at hat ⊢
      simp [List.find?, hat]
    | j' + 1 =>
      have hx : p x = false := hbefore ⟨0, by simp⟩ (Nat.succ_pos j')
      simp only [List.find?, hx]
      have hj' : j' < xs.length := by simpa using hj
      have hb' : ∀ i : Fin xs.length, i.1 < j' → p (xs.get i) = false := by
        intro i hi
        have := hbefore ⟨i.1 + 1, by simpa using i.2⟩ (Nat.succ_lt_succ hi)
        simpa using this
      have ha' : p (xs.get ⟨j', hj'⟩) = true := by simpa using hat
      simpa using ih hj' hb' ha'

theorem updateFirst_of_first {p : α → Bool} {f : α → α} {l : List α} {j : Nat}
    (hj : j < l.length)
    (hbefore : ∀ i : Fin l.length, i.1 < j → p (l.get i) = false)
    (hat : p (l.get ⟨j, hj⟩) = true) :
    updateFirst p f l = l.set j (f (l.get ⟨j, hj⟩)) := by
  induction l generalizing j with
  | nil => simp at hj
  | cons x xs ih =>
    match j with
    | 0 =>
      simp only [List.get] at hat ⊢
      simp [updateFirst, hat]
    | j' + 1 =>
      have hx : p x = false := hbefore ⟨0, by simp⟩ (Nat.succ_pos j')
      simp only [updateFirst, hx, Bool.false_eq_true, if_false]
      have hj' : j' < xs.length := by simpa using hj
      have hb' : ∀ i : Fin xs.length, i.1 < j' → p (xs.get i) = false := by
        intro i hi
        have := hbefore ⟨i.1 + 1, by simpa using i.2⟩ (Nat.succ_lt_succ hi)
        simpa using this
      have ha' : p (xs.get ⟨j', hj'⟩) = true := by simpa using hat
      simp [List.set, ih hj' hb' ha']

/-! Behaviour of the delete-with-adjust machinery. -/

theorem deletePhotosIfExist_eq (files : FileMap) (a b : String) :
    deletePhotosIfExist files a b = files := rfl

theorem renamePhotosIfExist_eq (files : FileMap) (a b c d : String) :
    renamePhotosIfExist files a b c d = files := rfl

theorem length_eraseIdx' (l : List α) : ∀ i, i < l.length →
    (l.eraseIdx i).length = l.length - 1 := by
  induction l with
  | nil => intro i hi; simp at hi
  | cons x xs ih =>
    intro i hi
    match i with
    | 0 => simp [List.eraseIdx]
    | i' + 1 =>
      have hi' : i' < xs.length := by simpa using hi
      simp only [List.eraseIdx, List.length_cons, ih i' hi']
      omega

theorem adjustVisitorsLoop_snd (vs : List Visitor) :
    ∀ i files, (adjustVisitorsLoop i vs files).2 = files := by
  induction vs with
  | nil => intro i files; rfl
  | cons v rest ih =>
    intro i files
    simp only [adjustVisitorsLoop, renamePhotosIfExist_eq]
    exact ih (i + 1) files

theorem adjustVisitorsLoop_length (vs : List Visitor) :
    ∀ i files, (adjustVisitorsLoop i vs files).1.length = vs.length := by
  induction vs with
  | nil => intro i files; rfl
  | cons v rest ih =>
    intro i files
    simp only [adjustVisitorsLoop, renamePhotosIfExist_eq, List.length_cons]
    rw [ih]

theorem adjustVisitorsLoop_get (vs : List Visitor) :
    ∀ i files (k : Fin vs.length)
      (hk : k.1 < (adjustVisitorsLoop i vs files).1.length),
      (adjustVisitorsLoop i vs files).1.get ⟨k.1, hk⟩ =
        renumberVisitor (i + k.1 + 1) (vs.get k) := by
  induction vs with
  | nil => intro i files k hk; exact absurd k.2 (by simp)
  | cons v rest ih =>
    intro i files k hk
    match k with
    | ⟨0, _⟩ => rfl
    | ⟨k' + 1, hk'⟩ =>
      have hk'' : k' < rest.length := by simpa using hk'
      have hlen : k' < (adjustVisitorsLoop (i + 1) rest files).1.length := by
        rw [adjustVisitorsLoop_length]; exact hk''
      have hrec := ih (i + 1) files ⟨k', hk''⟩ hlen
      have harith : i + 1 + k' + 1 = i + (k' + 1) + 1 := by omega
      simp only [adjustVisitorsLoop, renamePhotosIfExist_eq, List.get_cons_succ]
      rw [hrec, harith]

/-- The fields of a visitor record that the renumbering pass does not
touch: everything except the serial number and the two photo paths. -/
def visitorCore (v : Visitor) : List (Option String) :=
  [v.idNumber, v.name, v.company, v.phone, v.timeIn, v.date, v.purpose, v.timeOut]

theorem visitorCore_renumber (n : Nat) (v : Visitor) :
    visitorCore (renumberVisitor n v) = visitorCore v := rfl

/-- Helper: on a dense collection, delete-with-adjust of the serial number
at position `j` answers with the remaining count, drops exactly that
record, and renumbers the remainder positionally to `0001..N`. -/
theorem deleteVisitorAdjust_renumbers (s : VisitorStore) (j : Nat)
    (hj : j < s.visitors.length)
    (hdense : ∀ i : Fin s.visitors.length,
      (s.visitors.get i).serialNumber = some (serialFor (i.1 + 1))) :
    ∃ s' : VisitorStore,
      deleteVisitorAdjust (serialFor (j + 1)) s = (.ok (s.visitors.length - 1), s') ∧
      s'.visitors.length = s.visitors.length - 1 ∧
      (∀ i : Fin s'.visitors.length,
        (s'.visitors.get i).serialNumber = some (serialFor (i.1 + 1))) ∧
      (∀ i : Fin s'.visitors.length, ∀ h2 : i.1 < (s.visitors.eraseIdx j).length,
        visitorCore (s'.visitors.get i) =
          visitorCore ((s.visitors.eraseIdx j).get ⟨i.1, h2⟩)) := by
  have hfind : jsFindIndex (fun v => v.serialNumber == some (serialFor (j + 1)))
      s.visitors = some j := by
    apply jsFindIndex_eq_some hj
    · intro i hi
      rw [hdense i]
      have hne : serialFor (i.1 + 1) ≠ serialFor (j + 1) := by
        intro h
        have := serialFor_injective h
        omega
      simpa using hne
    · rw [hdense ⟨j, hj⟩]
      simp
  have hloop_len := adjustVisitorsLoop_length (s.visitors.eraseIdx j) 0 s.files
  have herase_len := length_eraseIdx' s.visitors j hj
  refine ⟨{ visitors := (adjustVisitorsLoop 0 (s.visitors.eraseIdx j) s.files).1,
            files := (adjustVisitorsLoop 0 (s.visitors.eraseIdx j) s.files).2 }, ?_, ?_, ?_, ?_⟩
  · simp only [deleteVisitorAdjust, hfind, deletePhotosIfExist_eq]
    rw [hloop_len, herase_len]
  · simp only [hloop_len, herase_len]
  · intro i
    have hi2 : i.1 < (s.visitors.eraseIdx j).length :=
      Nat.lt_of_lt_of_eq i.2 hloop_len
    have := adjustVisitorsLoop_get (s.visitors.eraseIdx j) 0 s.files ⟨i.1, hi2⟩ i.2
    simp only [List.get] at this ⊢
    rw [this]
    simp [renumberVisitor, Nat.zero_add]
  · intro i h2
    have := adjustVisitorsLoop_get (s.visitors.eraseIdx j) 0 s.files ⟨i.1, h2⟩ i.2
    simp only [List.get] at this ⊢
    rw [this, visitorCore_renumber]

theorem adjustKeysLoop_snd (ks : List Key) :
    ∀ i files, (adjustKeysLoop i ks files).2 = files := by
  induction ks with
  | nil => intro i files; rfl
  | cons k rest ih =>
    intro i files
    simp only [adjustKeysLoop, renamePhotosIfExist_eq]
    exact ih (i + 1) files

theorem adjustKeysLoop_length (ks : List Key) :
    ∀ i files, (adjustKeysLoop i ks files).1.length = ks.length := by
  induction ks with
  | nil => intro i files; rfl
  | cons k rest ih =>
    intro i files
    simp only [adjustKeysLoop, renamePhotosIfExist_eq, List.length_cons]
    rw [ih]

theorem adjustKeysLoop_get (ks : List Key) :
    ∀ i files (k : Fin ks.length)
      (hk : k.1 < (adjustKeysLoop i ks files).1.length),
      (adjustKeysLoop i ks files).1.get ⟨k.1, hk⟩ =
        renumberKey (i + k.1 + 1) (ks.get k) := by
  induction ks with
  | nil => intro i files k hk; exact absurd k.2 (by simp)
  | cons x rest ih =>
    intro i files k hk
    match k with
    | ⟨0, _⟩ => rfl
    | ⟨k' + 1, hk'⟩ =>
      have hk'' : k' < rest.length := by simpa using hk'
      have hlen : k' < (adjustKeysLoop (i + 1) rest files).1.length := by
        rw [adjustKeysLoop_length]; exact hk''
      have hrec := ih (i + 1) files ⟨k', hk''⟩ hlen
      have harith : i + 1 + k' + 1 = i + (k' + 1) + 1 := by omega
      simp only [adjustKeysLoop, renamePhotosIfExist_eq, List.get_cons_succ]
      rw [hrec, harith]

/-- The fields of a key record that the renumbering pass does not touch. -/
def keyCore (k : Key) : List (Option String) :=
  [k.idNumber, k.name, k.keyTagName, k.timeTaken, k.date, k.securityRemarks, k.timeReturned]

theorem keyCore_renumber (n : Nat) (k : Key) :
    keyCore (renumberKey n k) = keyCore k := rfl

/-- Helper: key-side delete-with-adjust on a dense collection, parallel to
`deleteVisitorAdjust_renumbers`. -/
theorem deleteKeyAdjust_renumbers (s : KeyStore) (j : Nat)
    (hj : j < s.keys.length)
    (hdense : ∀ i : Fin s.keys.length,
      (s.keys.get i).serialNumber = some (serialFor (i.1 + 1))) :
    ∃ s' : KeyStore,
      deleteKeyAdjust (serialFor (j + 1)) s = (.ok (s.keys.length - 1), s') ∧
      s'.keys.length = s.keys.length - 1 ∧
      (∀ i : Fin s'.keys.length,
        (s'.keys.get i).serialNumber = some (serialFor (i.1 + 1))) ∧
      (∀ i : Fin s'.keys.length, ∀ h2 : i.1 < (s.keys.eraseIdx j).length,
        keyCore (s'.keys.get i) = keyCore ((s.keys.eraseIdx j).get ⟨i.1, h2⟩)) := by
  have hfind : jsFindIndex (fun k => k.serialNumber == some (serialFor (j + 1)))
      s.keys = some j := by
    apply jsFindIndex_eq_some hj
    · intro i hi
      rw [hdense i]
      have hne : serialFor (i.1 + 1) ≠ serialFor (j + 1) := by
        intro h
        have := serialFor_injective h
        omega
      simpa using hne
    · rw [hdense ⟨j, hj⟩]
      simp
  have hloop_len := adjustKeysLoop_length (s.keys.eraseIdx j) 0 s.files
  have herase_len := length_eraseIdx' s.keys j hj
  refine ⟨{ keys := (adjustKeysLoop 0 (s.keys.eraseIdx j) s.files).1,
            files := (adjustKeysLoop 0 (s.keys.eraseIdx j) s.files).2 }, ?_, ?_, ?_, ?_⟩
  · simp only [deleteKeyAdjust, hfind, deletePhotosIfExist_eq]
    rw [hloop_len, herase_len]
  · simp only [hloop_len, herase_len]
  · intro i
    have hi2 : i.1 < (s.keys.eraseIdx j).length :=
      Nat.lt_of_lt_of_eq i.2 hloop_len
    have := adjustKeysLoop_get (s.keys.eraseIdx j) 0 s.files ⟨i.1, hi2⟩ i.2
    simp only [List.get] at this ⊢
    rw [this]
    simp [renumberKey, Nat.zero_add]
  · intro i h2
    have := adjustKeysLoop_get (s.keys.eraseIdx j) 0 s.files ⟨i.1, h2⟩ i.2
    simp only [List.get] at this ⊢
    rw [this, keyCore_renumber]

/-- C1: on a collection with dense serial numbers `0001..N` (list position
matching numeric order), delete-with-adjust of an existing serial number
removes exactly that record, renumbers the remainder positionally to
`0001..N'` (preserving the relative order and all non-renumbered fields),
and answers with the remaining count — for the visitor route and for the
key route. -/
theorem deleteAdjust_renumbers_and_counts :
    (∀ (s : VisitorStore) (j : Nat), j < s.visitors.length →
      (∀ i : Fin s.visitors.length,
        (s.visitors.get i).serialNumber = some (serialFor (i.1 + 1))) →
      ∃ s' : VisitorStore,
        deleteVisitorAdjust (serialFor (j + 1)) s = (.ok (s.visitors.length - 1), s') ∧
        s'.visitors.length = s.visitors.length - 1 ∧
        (∀ i : Fin s'.visitors.length,
          (s'.visitors.get i).serialNumber = some (serialFor (i.1 + 1))) ∧
        (∀ i : Fin s'.visitors.length, ∀ h2 : i.1 < (s.visitors.eraseIdx j).length,
          visitorCore (s'.visitors.get i) =
            visitorCore ((s.visitors.eraseIdx j).get ⟨i.1, h2⟩))) ∧
    (∀ (s : KeyStore) (j : Nat), j < s.keys.length →
      (∀ i : Fin s.keys.length,
        (s.keys.get i).serialNumber = some (serialFor (i.1 + 1))) →
      ∃ s' : KeyStore,
        deleteKeyAdjust (serialFor (j + 1)) s = (.ok (s.keys.length - 1), s') ∧
        s'.keys.length = s.keys.length - 1 ∧
        (∀ i : Fin s'.keys.length,
          (s'.keys.get i).serialNumber = some (serialFor (i.1 + 1))) ∧
        (∀ i : Fin s'.keys.length, ∀ h2 : i.1 < (s.keys.eraseIdx j).length,
          keyCore (s'.keys.get i) = keyCore ((s.keys.eraseIdx j).get ⟨i.1, h2⟩))) :=
  ⟨fun s j hj hdense => deleteVisitorAdjust_renumbers s j hj hdense,
   fun s j hj hdense => deleteKeyAdjust_renumbers s j hj hdense⟩

/-- Concrete three-visitor store used by the claim witnesses. -/
def threeVisitors : VisitorStore :=
  { visitors :=
      [ { serialNumber := some "0001", name := some "alpha" },
        { serialNumber := some "0002", name := some "beta" },
        { serialNumber := some "0003", name := some "gamma" } ],
    files := [] }

/-- Concrete three-key store used by the claim witnesses. -/
def threeKeys : KeyStore :=
  { keys :=
      [ { serialNumber := some "0001", keyTagName := some "K1" },
        { serialNumber := some "0002", keyTagName := some "K2" },
        { serialNumber := some "0003", keyTagName := some "K3" } ],
    files := [] }

/-- Witness for C1 at the three-record stores, deleting position 1
(serial `0002`). -/
theorem deleteAdjust_renumbers_and_counts_witness :
    ((1 < threeVisitors.visitors.length) ∧
     (∀ i : Fin threeVisitors.visitors.length,
       (threeVisitors.visitors.get i).serialNumber = some (serialFor (i.1 + 1))) ∧
     ∃ s' : VisitorStore,
       deleteVisitorAdjust (serialFor (1 + 1)) threeVisitors =
         (.ok (threeVisitors.visitors.length - 1), s') ∧
       s'.visitors.length = threeVisitors.visitors.length - 1 ∧
       (∀ i : Fin s'.visitors.length,
         (s'.visitors.get i).serialNumber = some (serialFor (i.1 + 1))) ∧
       (∀ i : Fin s'.visitors.length,
         ∀ h2 : i.1 < (threeVisitors.visitors.eraseIdx 1).length,
         visitorCore (s'.visitors.get i) =
           visitorCore ((threeVisitors.visitors.eraseIdx 1).get ⟨i.1, h2⟩))) ∧
    ((1 < threeKeys.keys.length) ∧
     (∀ i : Fin threeKeys.keys.length,
       (threeKeys.keys.get i).serialNumber = some (serialFor (i.1 + 1))) ∧
     ∃ s' : KeyStore,
       deleteKeyAdjust (serialFor (1 + 1)) threeKeys =
         (.ok (threeKeys.keys.length - 1), s') ∧
       s'.keys.length = threeKeys.keys.length - 1 ∧
       (∀ i : Fin s'.keys.length,
         (s'.keys.get i).serialNumber = some (serialFor (i.1 + 1))) ∧
       (∀ i : Fin s'.keys.length, ∀ h2 : i.1 < (threeKeys.keys.eraseIdx 1).length,
         keyCore (s'.keys.get i) = keyCore ((threeKeys.keys.eraseIdx 1).get ⟨i.1, h2⟩))) :=
  ⟨⟨by decide, by decide,
    deleteAdjust_renumbers_and_counts.1 threeVisitors 1 (by decide) (by decide)⟩,
   ⟨by decide, by decide,
    deleteAdjust_renumbers_and_counts.2 threeKeys 1 (by decide) (by decide)⟩⟩

/-- C4: delete-with-adjust of a serial number matching no record answers
`NotFoundError` and leaves the store untouched (no record removed, no
renumbering, no collection write), for both routes. -/
theorem deleteAdjust_unknown_serial_not_found :
    (∀ (serial : String) (s : VisitorStore),
      (∀ v ∈ s.visitors, v.serialNumber ≠ some serial) →
      deleteVisitorAdjust serial s = (.error "Visitor not found", s)) ∧
    (∀ (serial : String) (s : KeyStore),
      (∀ k ∈ s.keys, k.serialNumber ≠ some serial) →
      deleteKeyAdjust serial s = (.error "Key not found", s)) := by
  constructor
  · intro serial s h
    have hfind : jsFindIndex (fun v => v.serialNumber == some serial) s.visitors = none := by
      apply jsFindIndex_eq_none
      intro x hx
      simpa using h x hx
    simp [deleteVisitorAdjust, hfind]
  · intro serial s h
    have hfind : jsFindIndex (fun k => k.serialNumber == some serial) s.keys = none := by
      apply jsFindIndex_eq_none
      intro x hx
      simpa using h x hx
    simp [deleteKeyAdjust, hfind]

/-- Witness for C4: serial `0005` is absent from the three-record stores
and both deletes answer not-found with the store unchanged. -/
theorem deleteAdjust_unknown_serial_not_found_witness :
    ((∀ v ∈ threeVisitors.visitors, v.serialNumber ≠ some "0005") ∧
      deleteVisitorAdjust "0005" threeVisitors =
        (.error "Visitor not found", threeVisitors)) ∧
    ((∀ k ∈ threeKeys.keys, k.serialNumber ≠ some "0005") ∧
      deleteKeyAdjust "0005" threeKeys = (.error "Key not found", threeKeys)) :=
  ⟨⟨by decide, deleteAdjust_unknown_serial_not_found.1 "0005" threeVisitors (by decide)⟩,
   ⟨by decide, deleteAdjust_unknown_serial_not_found.2 "0005" threeKeys (by decide)⟩⟩

/-- The scenario store of C2: three visitors `0001..0003`, each with its
two photo files on disk under the serial-based names. -/
def scenarioStore : VisitorStore :=
  { visitors :=
      [ { serialNumber := some "0001", name := some "alpha",
          frontPhoto := some "/photos/0001_front.jpg",
          backPhoto := some "/photos/0001_back.jpg" },
        { serialNumber := some "0002", name := some "beta",
          frontPhoto := some "/photos/0002_front.jpg",
          backPhoto := some "/photos/0002_back.jpg" },
        { serialNumber := some "0003", name := some "gamma",
          frontPhoto := some "/photos/0003_front.jpg",
          backPhoto := some "/photos/0003_back.jpg" } ],
    files :=
      [ ("0001_front.jpg", "photo1F"), ("0001_back.jpg", "photo1B"),
        ("0002_front.jpg", "photo2F"), ("0002_back.jpg", "photo2B"),
        ("0003_front.jpg", "photo3F"), ("0003_back.jpg", "photo3B") ] }

/-- C2 (what the code actually does at the claimed scenario): deleting
`0002` with adjust renumbers the records — the remaining two records carry
serials `0001`, `0002`, with the former `0003` record now `0002` — but the
photo directory is left completely unchanged: `fs` is the promises API, so
every `fs.existsSync` call throws inside the `try` blocks and no photo
file is deleted or renamed.  In particular `0003_front.jpg` and
`0003_back.jpg` still exist under their old names, and the files now
referenced as `0002_*.jpg` still hold the deleted visitor's photos. -/
theorem deleteAdjust_scenario_photo_files_stale :
    (deleteVisitorAdjust "0002" scenarioStore).1 = .ok 2 ∧
    ((deleteVisitorAdjust "0002" scenarioStore).2.visitors.map
        (fun v => v.serialNumber)) = [some "0001", some "0002"] ∧
    ((deleteVisitorAdjust "0002" scenarioStore).2.visitors.map
        (fun v => v.name)) = [some "alpha", some "gamma"] ∧
    (deleteVisitorAdjust "0002" scenarioStore).2.files = scenarioStore.files ∧
    ("0003_front.jpg", "photo3F") ∈ (deleteVisitorAdjust "0002" scenarioStore).2.files ∧
    ("0003_back.jpg", "photo3B") ∈ (deleteVisitorAdjust "0002" scenarioStore).2.files ∧
    ("0002_front.jpg", "photo2F") ∈ (deleteVisitorAdjust "0002" scenarioStore).2.files := by
  decide

/-! Validation helpers. -/

theorem jsTruthy_of_not_blank {x : Option String} (h : isBlank x = false) :
    jsTruthy x = true := by
  match x with
  | none => simp [isBlank] at h
  | some s =>
    simp only [isBlank, beq_eq_false_iff_ne, ne_eq] at h
    simp only [jsTruthy, bne_iff_ne, ne_eq]
    intro he
    subst he
    exact h (by decide)

theorem validateVisitorData_missing {v : Visitor}
    (h : missingVisitorFields v ≠ []) :
    validateVisitorData v =
      .error ("Missing required fields: " ++
        String.intercalate ", " (missingVisitorFields v)) := by
  simp [validateVisitorData, h]

theorem validateKeyData_missing {k : Key} (h : missingKeyFields k ≠ []) :
    validateKeyData k =
      .error ("Missing required fields: " ++
        String.intercalate ", " (missingKeyFields k)) := by
  simp [validateKeyData, h]

theorem validateVisitorData_bad_id {v : Visitor}
    (h1 : missingVisitorFields v = [])
    (h2 : matchesIdPattern (jsStr v.idNumber) = false) :
    validateVisitorData v = .error "Invalid ID Number format" := by
  simp [validateVisitorData, h1, h2]

theorem validateKeyData_bad_id {k : Key}
    (h1 : missingKeyFields k = [])
    (h2 : matchesIdPattern (jsStr k.idNumber) = false) :
    validateKeyData k =
      .error "Invalid Emirates ID format. Expected format: 784-XXXX-XXXXXXX-X" := by
  simp [validateKeyData, h1, h2]

theorem validateVisitorData_passes {v : Visitor}
    (h1 : missingVisitorFields v = [])
    (h2 : matchesIdPattern (jsStr v.idNumber) = true)
    (h3 : jsTruthy v.frontPhoto = true) (h4 : jsTruthy v.backPhoto = true) :
    validateVisitorData v = .ok () := by
  simp [validateVisitorData, h1, h2, h3, h4]

theorem validateKeyData_passes {k : Key}
    (h1 : missingKeyFields k = [])
    (h2 : matchesIdPattern (jsStr k.idNumber) = true)
    (h3 : jsTruthy k.frontPhoto = true) (h4 : jsTruthy k.backPhoto = true) :
    validateKeyData k = .ok () := by
  simp [validateKeyData, h1, h2, h3, h4]

theorem mem_missingVisitorFields {v : Visitor} {f : String}
    (hf : f ∈ requiredVisitorFields) (hb : isBlank (visitorField v f) = true) :
    f ∈ missingVisitorFields v := by
  simp [missingVisitorFields, List.mem_filter, hf, hb]

theorem mem_missingKeyFields {k : Key} {f : String}
    (hf : f ∈ requiredKeyFields) (hb : isBlank (keyField k f) = true) :
    f ∈ missingKeyFields k := by
  simp [missingKeyFields, List.mem_filter, hf, hb]

theorem validateVisitorData_ok_inv {v : Visitor}
    (h : validateVisitorData v = .ok ()) :
    missingVisitorFields v = [] ∧ matchesIdPattern (jsStr v.idNumber) = true ∧
      jsTruthy v.frontPhoto = true ∧ jsTruthy v.backPhoto = true := by
  by_cases h1 : missingVisitorFields v = []
  · by_cases h2 : matchesIdPattern (jsStr v.idNumber) = true
    · by_cases h3 : jsTruthy v.frontPhoto = true ∧ jsTruthy v.backPhoto = true
      · exact ⟨h1, h2, h3.1, h3.2⟩
      · rw [validateVisitorData] at h
        simp [h1, h2, h3] at h
    · rw [validateVisitorData] at h
      simp [h1, h2] at h
  · rw [validateVisitorData] at h
    simp [h1] at h

theorem validateKeyData_ok_inv {k : Key} (h : validateKeyData k = .ok ()) :
    missingKeyFields k = [] ∧ matchesIdPattern (jsStr k.idNumber) = true ∧
      jsTruthy k.frontPhoto = true ∧ jsTruthy k.backPhoto = true := by
  by_cases h1 : missingKeyFields k = []
  · by_cases h2 : matchesIdPattern (jsStr k.idNumber) = true
    · by_cases h3 : jsTruthy k.frontPhoto = true ∧ jsTruthy k.backPhoto = true
      · exact ⟨h1, h2, h3.1, h3.2⟩
      · rw [validateKeyData] at h
        simp [h1, h2, h3] at h
    · rw [validateKeyData] at h
      simp [h1, h2] at h
  · rw [validateKeyData] at h
    simp [h1] at h

theorem not_blank_of_missing_nil {v : Visitor} {f : String}
    (h : missingVisitorFields v = []) (hf : f ∈ requiredVisitorFields) :
    isBlank (visitorField v f) = false := by
  rw [missingVisitorFields, List.filter_eq_nil_iff] at h
  simpa using h f hf

theorem not_blank_of_missingKey_nil {k : Key} {f : String}
    (h : missingKeyFields k = []) (hf : f ∈ requiredKeyFields) :
    isBlank (keyField k f) = false := by
  rw [missingKeyFields, List.filter_eq_nil_iff] at h
  simpa using h f hf

/-- Key validation succeeding forces a truthy `date`, so the
`if (!key.date)` default in the key create is dead for validated input. -/
theorem validateKeyData_date_truthy {k : Key} (h : validateKeyData k = .ok ()) :
    jsTruthy k.date = true := by
  have h1 := (validateKeyData_ok_inv h).1
  have hb : isBlank (keyField k "date") = false :=
    not_blank_of_missingKey_nil h1 (by decide)
  exact jsTruthy_of_not_blank hb

/-! Behaviour of the create handlers. -/

/-- The record the visitor create stores when validation passes and both
photo writes succeed: serial and date overwritten, photo fields rewritten
to web paths. -/
def createdVisitor (today : String) (v : Visitor) (n : Nat) : Visitor :=
  { v with serialNumber := some (serialFor n),
           date := some today,
           frontPhoto := some ("/photos/" ++ serialFor n ++ "_front.jpg"),
           backPhoto := some ("/photos/" ++ serialFor n ++ "_back.jpg") }

/-- The record the key create stores for validated input (whose date is
necessarily truthy, so it is kept): serial overwritten, photo fields
rewritten to `key_`-prefixed web paths, date untouched. -/
def createdKey (k : Key) (n : Nat) : Key :=
  { k with serialNumber := some (serialFor n),
           frontPhoto := some ("/photos/key_" ++ serialFor n ++ "_front.jpg"),
           backPhoto := some ("/photos/key_" ++ serialFor n ++ "_back.jpg") }

theorem createVisitor_err {v : Visitor} {e : String}
    (h : validateVisitorData v = .error e) (today : String)
    (writeOk : String → Bool) (s : VisitorStore) :
    createVisitor today writeOk v s = (.error e, s) := by
  simp [createVisitor, h]

theorem createKey_err {k : Key} {e : String}
    (h : validateKeyData k = .error e) (today : String)
    (writeOk : String → Bool) (s : KeyStore) :
    createKey today writeOk k s = (.error e, s) := by
  simp [createKey, h]

theorem createVisitor_ok {v : Visitor} (h : validateVisitorData v = .ok ())
    (today : String) (s : VisitorStore) :
    createVisitor today (fun _ => true) v s =
      (.ok (createdVisitor today v (s.visitors.length + 1)),
       { visitors := s.visitors ++ [createdVisitor today v (s.visitors.length + 1)],
         files :=
           writeEntry
             (writeEntry s.files (serialFor (s.visitors.length + 1) ++ "_front.jpg")
               (stripDataUrl (jsStr v.frontPhoto)))
             (serialFor (s.visitors.length + 1) ++ "_back.jpg")
             (stripDataUrl (jsStr v.backPhoto)) }) := by
  simp only [createVisitor, h, fsWriteFile, createdVisitor, if_true]
  rfl

theorem createKey_ok {k : Key} (h : validateKeyData k = .ok ())
    (today : String) (s : KeyStore) :
    createKey today (fun _ => true) k s =
      (.ok (createdKey k (s.keys.length + 1)),
       { keys := s.keys ++ [createdKey k (s.keys.length + 1)],
         files :=
           writeEntry
             (writeEntry s.files ("key_" ++ serialFor (s.keys.length + 1) ++ "_front.jpg")
               (stripDataUrl (jsStr k.frontPhoto)))
             ("key_" ++ serialFor (s.keys.length + 1) ++ "_back.jpg")
             (stripDataUrl (jsStr k.backPhoto)) }) := by
  have hdate := validateKeyData_date_truthy h
  simp only [createKey, h, fsWriteFile, createdKey, hdate, if_true]
  rfl

/-- C3: for every create on a collection of current size `n`, the stored
record's serial number is `(n + 1)` zero-padded to four digits, regardless
of any serial number the caller supplied (the input is quantified over all
field values, so any supplied serial is overwritten) — for the visitor
flow and for the key flow. -/
theorem create_assigns_sequential_serial :
    (∀ (today : String) (v : Visitor) (s : VisitorStore),
      validateVisitorData v = .ok () →
      ∃ rec s', createVisitor today (fun _ => true) v s = (.ok rec, s') ∧
        rec.serialNumber = some (serialFor (s.visitors.length + 1)) ∧
        s'.visitors = s.visitors ++ [rec]) ∧
    (∀ (today : String) (k : Key) (s : KeyStore),
      validateKeyData k = .ok () →
      ∃ rec s', createKey today (fun _ => true) k s = (.ok rec, s') ∧
        rec.serialNumber = some (serialFor (s.keys.length + 1)) ∧
        s'.keys = s.keys ++ [rec]) := by
  constructor
  · intro today v s h
    exact ⟨_, _, createVisitor_ok h today s, rfl, rfl⟩
  · intro today k s h
    exact ⟨_, _, createKey_ok h today s, rfl, rfl⟩

/-- A visitor input passing validation, with a client-supplied serial
number and date that the server should discard. -/
def validVisitor : Visitor :=
  { serialNumber := some "7777", idNumber := some "784-1234-1234567-1",
    name := some "Ada", company := some "ACME", phone := some "050",
    timeIn := some "09:00", date := some "1999-01-01", purpose := some "meet",
    frontPhoto := some "data:image/jpeg;base64,FRONTDATA",
    backPhoto := some "BACKDATA" }

/-- A key input passing validation, with a client-supplied serial number
(discarded) and date (kept by the key flow). -/
def validKey : Key :=
  { serialNumber := some "8888", idNumber := some "784-1234-1234567-1",
    name := some "Bo", keyTagName := some "K7", timeTaken := some "10:00",
    date := some "2026-02-02", securityRemarks := some "ok",
    frontPhoto := some "KFRONT", backPhoto := some "KBACK" }

/-- Witness for C3 on the three-record stores: both creates store serial
`0004` although the callers supplied `7777` / `8888`. -/
theorem create_assigns_sequential_serial_witness :
    (validateVisitorData validVisitor = .ok () ∧
      ∃ rec s', createVisitor "2026-10-12" (fun _ => true) validVisitor threeVisitors =
          (.ok rec, s') ∧
        rec.serialNumber = some (serialFor (threeVisitors.visitors.length + 1)) ∧
        s'.visitors = threeVisitors.visitors ++ [rec]) ∧
    (validateKeyData validKey = .ok () ∧
      ∃ rec s', createKey "2026-10-12" (fun _ => true) validKey threeKeys =
          (.ok rec, s') ∧
        rec.serialNumber = some (serialFor (threeKeys.keys.length + 1)) ∧
        s'.keys = threeKeys.keys ++ [rec]) :=
  ⟨⟨by decide,
    create_assigns_sequential_serial.1 "2026-10-12" validVisitor threeVisitors (by decide)⟩,
   ⟨by decide,
    create_assigns_sequential_serial.2 "2026-10-12" validKey threeKeys (by decide)⟩⟩

/-- C5: whenever one or more required fields are absent or blank after
trimming, validation fails with a message that names the complete list of
missing fields (joined in order), and every absent-or-blank required field
is in that list — for both validators. -/
theorem validate_reports_all_missing_fields :
    (∀ v : Visitor, missingVisitorFields v ≠ [] →
      validateVisitorData v =
        .error ("Missing required fields: " ++
          String.intercalate ", " (missingVisitorFields v))) ∧
    (∀ (v : Visitor) (f : String), f ∈ requiredVisitorFields →
      isBlank (visitorField v f) = true → f ∈ missingVisitorFields v) ∧
    (∀ k : Key, missingKeyFields k ≠ [] →
      validateKeyData k =
        .error ("Missing required fields: " ++
          String.intercalate ", " (missingKeyFields k))) ∧
    (∀ (k : Key) (f : String), f ∈ requiredKeyFields →
      isBlank (keyField k f) = true → f ∈ missingKeyFields k) :=
  ⟨fun _ h => validateVisitorData_missing h,
   fun _ _ hf hb => mem_missingVisitorFields hf hb,
   fun _ h => validateKeyData_missing h,
   fun _ _ hf hb => mem_missingKeyFields hf hb⟩

/-- Visitor input with two offending fields: `name` absent and `phone`
whitespace-only. -/
def twoBlankVisitor : Visitor :=
  { validVisitor with name := none, phone := some "   " }

/-- Key input with two offending fields: `keyTagName` absent and
`securityRemarks` whitespace-only. -/
def twoBlankKey : Key :=
  { validKey with keyTagName := none, securityRemarks := some " " }

/-- Witness for C5: both offenders are listed together in the message. -/
theorem validate_reports_all_missing_fields_witness :
    (missingVisitorFields twoBlankVisitor ≠ [] ∧
      missingVisitorFields twoBlankVisitor = ["name", "phone"] ∧
      validateVisitorData twoBlankVisitor =
        .error ("Missing required fields: " ++
          String.intercalate ", " (missingVisitorFields twoBlankVisitor)) ∧
      ("phone" ∈ requiredVisitorFields ∧
        isBlank (visitorField twoBlankVisitor "phone") = true ∧
        "phone" ∈ missingVisitorFields twoBlankVisitor)) ∧
    (missingKeyFields twoBlankKey ≠ [] ∧
      missingKeyFields twoBlankKey = ["keyTagName", "securityRemarks"] ∧
      validateKeyData twoBlankKey =
        .error ("Missing required fields: " ++
          String.intercalate ", " (missingKeyFields twoBlankKey)) ∧
      ("securityRemarks" ∈ requiredKeyFields ∧
        isBlank (keyField twoBlankKey "securityRemarks") = true ∧
        "securityRemarks" ∈ missingKeyFields twoBlankKey)) :=
  ⟨⟨by decide, by decide,
    validate_reports_all_missing_fields.1 twoBlankVisitor (by decide),
    ⟨by decide, by decide,
     validate_reports_all_missing_fields.2.1 twoBlankVisitor "phone" (by decide) (by decide)⟩⟩,
   ⟨by decide, by decide,
    validate_reports_all_missing_fields.2.2.1 twoBlankKey (by decide),
    ⟨by decide, by decide,
     validate_reports_all_missing_fields.2.2.2 twoBlankKey "securityRemarks"
       (by decide) (by decide)⟩⟩⟩

/-- C6: with every required field present, create fails with a
`ValidationError` when `idNumber` does not match `^784-\d{4}-\d{7}-\d$`
(in particular `123-4567-8901234-5` does not match) and passes validation
and succeeds when the id conforms (`784-1234-1234567-1` matches) and both
photo payloads are present — for both flows; a validation error is
propagated unchanged by the create handler. -/
theorem validate_checks_id_pattern :
    (matchesIdPattern "123-4567-8901234-5" = false) ∧
    (matchesIdPattern "784-1234-1234567-1" = true) ∧
    (∀ v : Visitor, missingVisitorFields v = [] →
      matchesIdPattern (jsStr v.idNumber) = false →
      validateVisitorData v = .error "Invalid ID Number format") ∧
    (∀ v : Visitor, missingVisitorFields v = [] →
      matchesIdPattern (jsStr v.idNumber) = true →
      jsTruthy v.frontPhoto = true → jsTruthy v.backPhoto = true →
      validateVisitorData v = .ok ()) ∧
    (∀ (today : String) (writeOk : String → Bool) (v : Visitor) (s : VisitorStore)
      (e : String), validateVisitorData v = .error e →
      createVisitor today writeOk v s = (.error e, s)) ∧
    (∀ (today : String) (v : Visitor) (s : VisitorStore),
      validateVisitorData v = .ok () →
      ∃ rec s', createVisitor today (fun _ => true) v s = (.ok rec, s')) ∧
    (∀ k : Key, missingKeyFields k = [] →
      matchesIdPattern (jsStr k.idNumber) = false →
      validateKeyData k =
        .error "Invalid Emirates ID format. Expected format: 784-XXXX-XXXXXXX-X") ∧
    (∀ k : Key, missingKeyFields k = [] →
      matchesIdPattern (jsStr k.idNumber) = true →
      jsTruthy k.frontPhoto = true → jsTruthy k.backPhoto = true →
      validateKeyData k = .ok ()) ∧
    (∀ (today : String) (writeOk : String → Bool) (k : Key) (s : KeyStore)
      (e : String), validateKeyData k = .error e →
      createKey today writeOk k s = (.error e, s)) ∧
    (∀ (today : String) (k : Key) (s : KeyStore), validateKeyData k = .ok () →
      ∃ rec s', createKey today (fun _ => true) k s = (.ok rec, s')) :=
  ⟨by decide, by decide,
   fun _ h1 h2 => validateVisitorData_bad_id h1 h2,
   fun _ h1 h2 h3 h4 => validateVisitorData_passes h1 h2 h3 h4,
   fun today writeOk _ s _ h => createVisitor_err h today writeOk s,
   fun today v s h => ⟨_, _, createVisitor_ok h today s⟩,
   fun _ h1 h2 => validateKeyData_bad_id h1 h2,
   fun _ h1 h2 h3 h4 => validateKeyData_passes h1 h2 h3 h4,
   fun today writeOk _ s _ h => createKey_err h today writeOk s,
   fun today k s h => ⟨_, _, createKey_ok h today s⟩⟩

/-- The valid inputs with the malformed example id substituted in. -/
def badIdVisitor : Visitor := { validVisitor with idNumber := some "123-4567-8901234-5" }

/-- Key input with the malformed example id. -/
def badIdKey : Key := { validKey with idNumber := some "123-4567-8901234-5" }

/-- Witness for C6: the malformed id is rejected (and the create aborts
with that error, store unchanged), the conforming id passes validation and
its create succeeds. -/
theorem validate_checks_id_pattern_witness :
    (missingVisitorFields badIdVisitor = [] ∧
      matchesIdPattern (jsStr badIdVisitor.idNumber) = false ∧
      validateVisitorData badIdVisitor = .error "Invalid ID Number format" ∧
      createVisitor "2026-10-12" (fun _ => true) badIdVisitor threeVisitors =
        (.error "Invalid ID Number format", threeVisitors)) ∧
    (missingVisitorFields validVisitor = [] ∧
      matchesIdPattern (jsStr validVisitor.idNumber) = true ∧
      jsTruthy validVisitor.frontPhoto = true ∧ jsTruthy validVisitor.backPhoto = true ∧
      validateVisitorData validVisitor = .ok () ∧
      ∃ rec s', createVisitor "2026-10-12" (fun _ => true) validVisitor threeVisitors =
        (.ok rec, s')) ∧
    (missingKeyFields badIdKey = [] ∧
      validateKeyData badIdKey =
        .error "Invalid Emirates ID format. Expected format: 784-XXXX-XXXXXXX-X") ∧
    (validateKeyData validKey = .ok () ∧
      ∃ rec s', createKey "2026-10-12" (fun _ => true) validKey threeKeys = (.ok rec, s')) :=
  ⟨⟨by decide, by decide,
    validate_checks_id_pattern.2.2.1 badIdVisitor (by decide) (by decide),
    validate_checks_id_pattern.2.2.2.2.1 "2026-10-12" (fun _ => true) badIdVisitor
      threeVisitors "Invalid ID Number format"
      (validate_checks_id_pattern.2.2.1 badIdVisitor (by decide) (by decide))⟩,
   ⟨by decide, by decide, by decide, by decide,
    validate_checks_id_pattern.2.2.2.1 validVisitor (by decide) (by decide)
      (by decide) (by decide),
    validate_checks_id_pattern.2.2.2.2.2.1 "2026-10-12" validVisitor threeVisitors
      (by decide)⟩,
   ⟨by decide,
    validate_checks_id_pattern.2.2.2.2.2.2.1 badIdKey (by decide) (by decide)⟩,
   ⟨by decide,
    validate_checks_id_pattern.2.2.2.2.2.2.2.2.2 "2026-10-12" validKey threeKeys
      (by decide)⟩⟩

/-- C7: timeout (visitor) / return (key) on an existing serial number sets
exactly the `timeOut` / `timeReturned` field of the first matching record
(`{ record with timeOut := t }` leaves every other field, including the
photo references, untouched), leaves every other record and the photo
directory unchanged, and answers with the updated record. -/
theorem timeout_return_set_single_field :
    (∀ (serial : String) (t : Option String) (s : VisitorStore) (j : Nat),
      jsFindIndex (fun v => v.serialNumber == some serial) s.visitors = some j →
      ∃ hj : j < s.visitors.length,
        timeoutVisitor serial t s =
          (.ok { s.visitors.get ⟨j, hj⟩ with timeOut := t },
           { s with visitors :=
               s.visitors.set j { s.visitors.get ⟨j, hj⟩ with timeOut := t } }) ∧
        (∀ i, i ≠ j →
          (s.visitors.set j { s.visitors.get ⟨j, hj⟩ with timeOut := t })[i]? =
            s.visitors[i]?)) ∧
    (∀ (serial : String) (t : Option String) (s : KeyStore) (j : Nat),
      jsFindIndex (fun k => k.serialNumber == some serial) s.keys = some j →
      ∃ hj : j < s.keys.length,
        returnKey serial t s =
          (.ok { s.keys.get ⟨j, hj⟩ with timeReturned := t },
           { s with keys :=
               s.keys.set j { s.keys.get ⟨j, hj⟩ with timeReturned := t } }) ∧
        (∀ i, i ≠ j →
          (s.keys.set j { s.keys.get ⟨j, hj⟩ with timeReturned := t })[i]? =
            s.keys[i]?)) := by
  constructor
  · intro serial t s j hfind
    obtain ⟨hj, hat, hbef⟩ := jsFindIndex_spec hfind
    have hfind? := find?_of_first (p := fun v => v.serialNumber == some serial)
      hj hbef hat
    have hupd := updateFirst_of_first (p := fun v => v.serialNumber == some serial)
      (f := fun u : Visitor => { u with timeOut := t }) hj hbef hat
    refine ⟨hj, ?_, ?_⟩
    · simp only [timeoutVisitor, hfind?, hupd]
    · intro i hi
      exact List.getElem?_set_ne (Ne.symm hi)
  · intro serial t s j hfind
    obtain ⟨hj, hat, hbef⟩ := jsFindIndex_spec hfind
    have hfind? := find?_of_first (p := fun k => k.serialNumber == some serial)
      hj hbef hat
    have hupd := updateFirst_of_first (p := fun k => k.serialNumber == some serial)
      (f := fun u : Key => { u with timeReturned := t }) hj hbef hat
    refine ⟨hj, ?_, ?_⟩
    · simp only [returnKey, hfind?, hupd]
    · intro i hi
      exact List.getElem?_set_ne (Ne.symm hi)

/-- Witness for C7: time out visitor `0002` and return key `0002` of the
three-record stores. -/
theorem timeout_return_set_single_field_witness :
    (jsFindIndex (fun v => v.serialNumber == some "0002")
        threeVisitors.visitors = some 1 ∧
      ∃ hj : 1 < threeVisitors.visitors.length,
        timeoutVisitor "0002" (some "17:30") threeVisitors =
          (.ok { threeVisitors.visitors.get ⟨1, hj⟩ with timeOut := some "17:30" },
           { threeVisitors with visitors := (threeVisitors.visitors.set 1
               { threeVisitors.visitors.get ⟨1, hj⟩ with timeOut := some "17:30" }) }) ∧
        (∀ i, i ≠ 1 →
          (threeVisitors.visitors.set 1
            { threeVisitors.visitors.get ⟨1, hj⟩ with timeOut := some "17:30" })[i]? =
              threeVisitors.visitors[i]?)) ∧
    (jsFindIndex (fun k => k.serialNumber == some "0002") threeKeys.keys = some 1 ∧
      ∃ hj : 1 < threeKeys.keys.length,
        returnKey "0002" (some "18:00") threeKeys =
          (.ok { threeKeys.keys.get ⟨1, hj⟩ with timeReturned := some "18:00" },
           { threeKeys with keys := (threeKeys.keys.set 1
               { threeKeys.keys.get ⟨1, hj⟩ with timeReturned := some "18:00" }) }) ∧
        (∀ i, i ≠ 1 →
          (threeKeys.keys.set 1
            { threeKeys.keys.get ⟨1, hj⟩ with timeReturned := some "18:00" })[i]? =
              threeKeys.keys[i]?)) :=
  ⟨⟨by decide,
    timeout_return_set_single_field.1 "0002" (some "17:30") threeVisitors 1 (by decide)⟩,
   ⟨by decide,
    timeout_return_set_single_field.2 "0002" (some "18:00") threeKeys 1 (by decide)⟩⟩

/-- C8 counterexample: on an empty store, creating `validVisitor` while
the back-photo write fails aborts with no record appended — but the
already-written front photo `0001_front.jpg` is NOT deleted: it is still
in the photo directory of the resulting store, so the create does not roll
back as the claim states. -/
theorem create_photo_write_failure_keeps_front_photo :
    createVisitor "2026-10-12" (fun p => p != "0001_back.jpg") validVisitor
        { visitors := [], files := [] } =
      (.error "photo write failed",
       { visitors := [], files := [("0001_front.jpg", "FRONTDATA")] }) ∧
    ("0001_front.jpg", "FRONTDATA") ∈
      (createVisitor "2026-10-12" (fun p => p != "0001_back.jpg") validVisitor
        { visitors := [], files := [] }).2.files ∧
    (createVisitor "2026-10-12" (fun p => p != "0001_back.jpg") validVisitor
        { visitors := [], files := [] }).2.visitors = [] := by
  decide

/-- C8 amended: when a photo write fails during create the operation
aborts with an error, no record is appended and the collection is not
written — but there is no rollback: a photo file already written before
the failure stays on disk (it is unreferenced, because the record is never
appended).  Stated for both flows and both failure points. -/
theorem create_photo_write_failure_aborts_without_rollback :
    (∀ (today : String) (writeOk : String → Bool) (v : Visitor) (s : VisitorStore),
      validateVisitorData v = .ok () →
      writeOk (serialFor (s.visitors.length + 1) ++ "_front.jpg") = true →
      writeOk (serialFor (s.visitors.length + 1) ++ "_back.jpg") = false →
      createVisitor today writeOk v s =
        (.error "photo write failed",
         { s with files := (writeEntry s.files
             (serialFor (s.visitors.length + 1) ++ "_front.jpg")
             (stripDataUrl (jsStr v.frontPhoto))) })) ∧
    (∀ (today : String) (writeOk : String → Bool) (v : Visitor) (s : VisitorStore),
      validateVisitorData v = .ok () →
      writeOk (serialFor (s.visitors.length + 1) ++ "_front.jpg") = false →
      createVisitor today writeOk v s = (.error "photo write failed", s)) ∧
    (∀ (today : String) (writeOk : String → Bool) (k : Key) (s : KeyStore),
      validateKeyData k = .ok () →
      writeOk ("key_" ++ serialFor (s.keys.length + 1) ++ "_front.jpg") = true →
      writeOk ("key_" ++ serialFor (s.keys.length + 1) ++ "_back.jpg") = false →
      createKey today writeOk k s =
        (.error "photo write failed",
         { s with files := (writeEntry s.files
             ("key_" ++ serialFor (s.keys.length + 1) ++ "_front.jpg")
             (stripDataUrl (jsStr k.frontPhoto))) })) ∧
    (∀ (today : String) (writeOk : String → Bool) (k : Key) (s : KeyStore),
      validateKeyData k = .ok () →
      writeOk ("key_" ++ serialFor (s.keys.length + 1) ++ "_front.jpg") = false →
      createKey today writeOk k s = (.error "photo write failed", s)) := by
  refine ⟨?_, ?_, ?_, ?_⟩
  · intro today writeOk v s h hw1 hw2
    simp [createVisitor, h, fsWriteFile, hw1, hw2]
  · intro today writeOk v s h hw1
    simp [createVisitor, h, fsWriteFile, hw1]
  · intro today writeOk k s h hw1 hw2
    have hdate := validateKeyData_date_truthy h
    simp [createKey, h, fsWriteFile, hw1, hw2, hdate]
  · intro today writeOk k s h hw1
    have hdate := validateKeyData_date_truthy h
    simp [createKey, h, fsWriteFile, hw1, hdate]

/-- Witness for the amended C8 at concrete inputs: back write fails for
the visitor flow, front write fails for the key flow. -/
theorem create_photo_write_failure_aborts_without_rollback_witness :
    (validateVisitorData validVisitor = .ok () ∧
      ((fun p => p != "0004_back.jpg")
        (serialFor (threeVisitors.visitors.length + 1) ++ "_front.jpg")) = true ∧
      ((fun p => p != "0004_back.jpg")
        (serialFor (threeVisitors.visitors.length + 1) ++ "_back.jpg")) = false ∧
      createVisitor "2026-10-12" (fun p => p != "0004_back.jpg") validVisitor
          threeVisitors =
        (.error "photo write failed",
         { threeVisitors with files := (writeEntry threeVisitors.files
             (serialFor (threeVisitors.visitors.length + 1) ++ "_front.jpg")
             (stripDataUrl (jsStr validVisitor.frontPhoto))) })) ∧
    (validateKeyData validKey = .ok () ∧
      createKey "2026-10-12" (fun _ => false) validKey threeKeys =
        (.error "photo write failed", threeKeys)) := by
  refine ⟨⟨by decide, ?_, ?_, ?_⟩, ⟨by decide, ?_⟩⟩
  · decide
  · decide
  · exact create_photo_write_failure_aborts_without_rollback.1 "2026-10-12"
      (fun p => p != "0004_back.jpg") validVisitor threeVisitors
      (by decide) (by decide) (by decide)
  · exact create_photo_write_failure_aborts_without_rollback.2.2.2 "2026-10-12"
      (fun _ => false) validKey threeKeys (by decide) (by decide)

/-- A key record whose `timeReturned` is present but the empty string —
reachable through the return endpoint with body `{timeReturned: ""}`. -/
def emptyReturnKey : Key := { validKey with timeReturned := some "" }

/-- C9 counterexample: the stats operation counts `emptyReturnKey` as
active (`!k.timeReturned` is true for the empty string), although the
record does not lack a `timeReturned` value — so `activeKeys` differs
from the number of records whose `timeReturned` is absent. -/
theorem stats_empty_string_counted_active :
    (statsOp [] [emptyReturnKey]).2 = 1 ∧
    (([emptyReturnKey] : List Key).filter (fun k => k.timeReturned == none)).length = 0 ∧
    (statsOp [] [emptyReturnKey]).2 ≠
      (([emptyReturnKey] : List Key).filter (fun k => k.timeReturned == none)).length := by
  decide

/-- C9 amended: stats answers `totalVisitors` = length of the visitor
collection and `activeKeys` = number of key records whose `timeReturned`
is absent or the empty string (JavaScript-falsy). -/
theorem stats_totals_and_falsy_active (visitors : List Visitor) (keys : List Key) :
    statsOp visitors keys =
      (visitors.length,
       (keys.filter (fun k => k.timeReturned == none || k.timeReturned == some "")).length) := by
  have hpred : (fun k : Key => ! jsTruthy k.timeReturned) =
      (fun k : Key => k.timeReturned == none || k.timeReturned == some "") := by
    funext k
    cases h : k.timeReturned with
    | none => simp [jsTruthy]
    | some s => simp [jsTruthy, bne]
  simp only [statsOp, hpred]

/-- Witness for the amended C9 at a concrete collection. -/
theorem stats_totals_and_falsy_active_witness :
    statsOp [] [emptyReturnKey, validKey] =
      (([] : List Visitor).length,
       (([emptyReturnKey, validKey] : List Key).filter
         (fun k => k.timeReturned == none || k.timeReturned == some "")).length) :=
  stats_totals_and_falsy_active [] [emptyReturnKey, validKey]

/-- C10: both validators also require `serialNumber` and `date` to be
present and non-blank — rejecting the create with the message listing
them — although a successful create then overwrites the serial number
always and, in the visitor flow, the date as well, while the key flow
keeps the client-supplied date (whose truthiness validation guarantees,
so the current-date default is never taken for validated input). -/
theorem create_requires_then_overwrites_serial_and_date :
    (∀ v : Visitor, isBlank v.serialNumber = true →
      "serialNumber" ∈ missingVisitorFields v ∧
      validateVisitorData v =
        .error ("Missing required fields: " ++
          String.intercalate ", " (missingVisitorFields v))) ∧
    (∀ v : Visitor, isBlank v.date = true →
      "date" ∈ missingVisitorFields v ∧
      validateVisitorData v =
        .error ("Missing required fields: " ++
          String.intercalate ", " (missingVisitorFields v))) ∧
    (∀ k : Key, isBlank k.serialNumber = true →
      "serialNumber" ∈ missingKeyFields k ∧
      validateKeyData k =
        .error ("Missing required fields: " ++
          String.intercalate ", " (missingKeyFields k))) ∧
    (∀ k : Key, isBlank k.date = true →
      "date" ∈ missingKeyFields k ∧
      validateKeyData k =
        .error ("Missing required fields: " ++
          String.intercalate ", " (missingKeyFields k))) ∧
    (∀ (today : String) (v : Visitor) (s : VisitorStore),
      validateVisitorData v = .ok () →
      ∃ rec s', createVisitor today (fun _ => true) v s = (.ok rec, s') ∧
        rec.serialNumber = some (serialFor (s.visitors.length + 1)) ∧
        rec.date = some today) ∧
    (∀ (today : String) (k : Key) (s : KeyStore),
      validateKeyData k = .ok () →
      jsTruthy k.date = true ∧
      ∃ rec s', createKey today (fun _ => true) k s = (.ok rec, s') ∧
        rec.serialNumber = some (serialFor (s.keys.length + 1)) ∧
        rec.date = k.date) := by
  refine ⟨?_, ?_, ?_, ?_, ?_, ?_⟩
  · intro v h
    have hmem : "serialNumber" ∈ missingVisitorFields v :=
      mem_missingVisitorFields (by decide) h
    exact ⟨hmem, validateVisitorData_missing (List.ne_nil_of_mem hmem)⟩
  · intro v h
    have hmem : "date" ∈ missingVisitorFields v :=
      mem_missingVisitorFields (by decide) h
    exact ⟨hmem, validateVisitorData_missing (List.ne_nil_of_mem hmem)⟩
  · intro k h
    have hmem : "serialNumber" ∈ missingKeyFields k :=
      mem_missingKeyFields (by decide) h
    exact ⟨hmem, validateKeyData_missing (List.ne_nil_of_mem hmem)⟩
  · intro k h
    have hmem : "date" ∈ missingKeyFields k :=
      mem_missingKeyFields (by decide) h
    exact ⟨hmem, validateKeyData_missing (List.ne_nil_of_mem hmem)⟩
  · intro today v s h
    exact ⟨_, _, createVisitor_ok h today s, rfl, rfl⟩
  · intro today k s h
    exact ⟨validateKeyData_date_truthy h, _, _, createKey_ok h today s, rfl, rfl⟩

/-- Visitor input with a blank serial number. -/
def blankSerialVisitor : Visitor := { validVisitor with serialNumber := some "  " }

/-- Key input with an absent date. -/
def blankDateKey : Key := { validKey with date := none }

/-- Witness for C10: blank `serialNumber` (visitor) and absent `date`
(key) are rejected and named; a valid create overwrites the serial and,
for the visitor flow the date, while the key flow keeps the client date. -/
theorem create_requires_then_overwrites_serial_and_date_witness :
    (isBlank blankSerialVisitor.serialNumber = true ∧
      "serialNumber" ∈ missingVisitorFields blankSerialVisitor ∧
      validateVisitorData blankSerialVisitor =
        .error ("Missing required fields: " ++
          String.intercalate ", " (missingVisitorFields blankSerialVisitor))) ∧
    (isBlank blankDateKey.date = true ∧
      "date" ∈ missingKeyFields blankDateKey ∧
      validateKeyData blankDateKey =
        .error ("Missing required fields: " ++
          String.intercalate ", " (missingKeyFields blankDateKey))) ∧
    (validateVisitorData validVisitor = .ok () ∧
      ∃ rec s', createVisitor "2026-10-12" (fun _ => true) validVisitor threeVisitors =
          (.ok rec, s') ∧
        rec.serialNumber = some (serialFor (threeVisitors.visitors.length + 1)) ∧
        rec.date = some "2026-10-12") ∧
    (validateKeyData validKey = .ok () ∧
      (jsTruthy validKey.date = true ∧
        ∃ rec s', createKey "2026-10-12" (fun _ => true) validKey threeKeys =
            (.ok rec, s') ∧
          rec.serialNumber = some (serialFor (threeKeys.keys.length + 1)) ∧
          rec.date = validKey.date)) :=
  ⟨⟨by decide,
    (create_requires_then_overwrites_serial_and_date.1 blankSerialVisitor (by decide)).1,
    (create_requires_then_overwrites_serial_and_date.1 blankSerialVisitor (by decide)).2⟩,
   ⟨by decide,
    (create_requires_then_overwrites_serial_and_date.2.2.2.1 blankDateKey (by decide)).1,
    (create_requires_then_overwrites_serial_and_date.2.2.2.1 blankDateKey (by decide)).2⟩,
   ⟨by decide,
    create_requires_then_overwrites_serial_and_date.2.2.2.2.1 "2026-10-12" validVisitor
      threeVisitors (by decide)⟩,
   ⟨by decide,
    create_requires_then_overwrites_serial_and_date.2.2.2.2.2 "2026-10-12" validKey
      threeKeys (by decide)⟩⟩

end VisitorLog
